import Mathlib

/-!
Verification development for the NVD vulnerability-analysis service
(`pkg/services/nvd.go`): a shallow embedding of the CPE normalizer and
validator, the resilient NVD fetcher, the CVSS metric extractor, the
likelihood deriver, the vendor-comment parser and the enrichment
orchestrator, together with theorems settling the specification claims.

Conventions of the embedding:
- Go `float64` score fields are only ever copied verbatim by this core
  (no arithmetic is performed on them), so they are modelled as `Rat`.
- Go `time.Duration` is an `int64` count of nanoseconds, modelled as `Int`.
- fallible Go functions returning `(T, error)` are modelled as
  `Except NvdError T`; `error` alone becomes `Except NvdError Unit`.
- the external HTTP world seen by the fetcher is a function from the
  attempt index to that attempt's outcome (transport error, or a status
  code with a body that either deserializes or does not).
-/

namespace NvdService

/-- Canonical severity enumeration (external `enums.SeverityType`). -/
inductive SeverityType
  | unknown
  | none
  | low
  | medium
  | high
  | critical
deriving DecidableEq, Repr

/-- Canonical access-vector enumeration (external `enums.AccessType`). -/
inductive AccessType
  | unknown
  | network
  | adjacentNetwork
  | local
  | physical
deriving DecidableEq, Repr

/-- Canonical complexity enumeration (external `enums.ComplexityType`). -/
inductive ComplexityType
  | unknown
  | low
  | medium
  | high
deriving DecidableEq, Repr

/-- Canonical privileges-required enumeration (external `enums.PrivilegesRequiredType`). -/
inductive PrivilegesRequiredType
  | unknown
  | none
  | low
  | high
deriving DecidableEq, Repr

/-- Canonical CIA impact enumeration (external `enums.ImpactType`). -/
inductive ImpactType
  | unknown
  | none
  | low
  | high
deriving DecidableEq, Repr

/-- Canonical exploit-maturity enumeration (external `enums.ExploitabilityType`). -/
inductive ExploitabilityType
  | unknown
  | unproven
  | proofOfConcept
  | functional
  | high
  | undefined
deriving DecidableEq, Repr

/-- Canonical likelihood enumeration (external `enums.LikelyhoodType`,
spelling kept from the source). -/
inductive LikelyhoodType
  | unknown
  | low
  | medium
  | high
  | veryHigh
deriving DecidableEq, Repr

/-- A parsed wall-clock instant, the image of Go `time.Time` restricted to
what the two fixed layouts of the source can produce. -/
structure GoTime where
  year : Nat
  month : Nat
  day : Nat
  hour : Nat
  minute : Nat
  second : Nat
  millis : Nat
deriving DecidableEq, Repr

/-- Gregorian leap-year rule, as enforced by Go `time.Parse` when it
validates the day of month. -/
def isLeapYear (y : Nat) : Bool :=
  (y % 4 == 0 && y % 100 != 0) || y % 400 == 0

/-- Number of days of month `m` of year `y`. -/
def daysInMonth (y m : Nat) : Nat :=
  if m == 2 then (if isLeapYear y then 29 else 28)
  else if m == 4 || m == 6 || m == 9 || m == 11 then 30
  else 31

/-- Numeric value of a pair of decimal digit characters. -/
def twoDigitVal (a b : Char) : Nat :=
  10 * (a.toNat - 48) + (b.toNat - 48)

/-- Range check shared by both layouts: month, day (against the calendar),
hour, minute, second. -/
def fieldsInRange (year month day hour minute second : Nat) : Bool :=
  1 ≤ month && month ≤ 12 && 1 ≤ day && day ≤ daysInMonth year month &&
    hour ≤ 23 && minute ≤ 59 && second ≤ 59

/-- Modelled from the spec: Go `time.Parse` with the fixed layout
`2006-01-02T15:04:05` (the strict pattern YYYY-MM-DDTHH:MM:SS, no
fractional seconds), used by `parseNvdVendorCommentDateTime`.
Succeeds exactly on 19-character strings of that shape whose calendar
fields are in range. -/
def parseLayoutSeconds (s : String) : Option GoTime :=
  match s.toList with
  | [y1, y2, y3, y4, q1, o1, o2, q2, a1, a2, t0, h1, h2, q3, i1, i2, q4, e1, e2] =>
    if (q1 == '-' && q2 == '-' && t0 == 'T' && q3 == ':' && q4 == ':' &&
        y1.isDigit && y2.isDigit && y3.isDigit && y4.isDigit &&
        o1.isDigit && o2.isDigit && a1.isDigit && a2.isDigit &&
        h1.isDigit && h2.isDigit && i1.isDigit && i2.isDigit &&
        e1.isDigit && e2.isDigit) then
      let year := 100 * twoDigitVal y1 y2 + twoDigitVal y3 y4
      let month := twoDigitVal o1 o2
      let day := twoDigitVal a1 a2
      let hour := twoDigitVal h1 h2
      let minute := twoDigitVal i1 i2
      let second := twoDigitVal e1 e2
      if fieldsInRange year month day hour minute second then
        some ⟨year, month, day, hour, minute, second, 0⟩
      else
        Option.none
    else
      Option.none
  | _ => Option.none

/-- Modelled from the spec: Go `time.Parse` with the fixed layout
`2006-01-02T15:04:05.000` (the strict pattern YYYY-MM-DDTHH:MM:SS.mmm,
three-digit fractional seconds mandatory), used by `parseNvdDateTime`. -/
def parseLayoutMillis (s : String) : Option GoTime :=
  match s.toList with
  | [y1, y2, y3, y4, q1, o1, o2, q2, a1, a2, t0, h1, h2, q3, i1, i2, q4, e1, e2,
     dot, m1, m2, m3] =>
    if (q1 == '-' && q2 == '-' && t0 == 'T' && q3 == ':' && q4 == ':' &&
        dot == '.' &&
        y1.isDigit && y2.isDigit && y3.isDigit && y4.isDigit &&
        o1.isDigit && o2.isDigit && a1.isDigit && a2.isDigit &&
        h1.isDigit && h2.isDigit && i1.isDigit && i2.isDigit &&
        e1.isDigit && e2.isDigit && m1.isDigit && m2.isDigit && m3.isDigit) then
      let year := 100 * twoDigitVal y1 y2 + twoDigitVal y3 y4
      let month := twoDigitVal o1 o2
      let day := twoDigitVal a1 a2
      let hour := twoDigitVal h1 h2
      let minute := twoDigitVal i1 i2
      let second := twoDigitVal e1 e2
      let millis := 100 * (m1.toNat - 48) + twoDigitVal m2 m3
      if fieldsInRange year month day hour minute second then
        some ⟨year, month, day, hour, minute, second, millis⟩
      else
        Option.none
    else
      Option.none
  | _ => Option.none

/-- `parseNvdDateTime` of the source: parse with the custom layout
`2006-01-02T15:04:05.000`; a parse failure is an error to the caller. -/
def parseNvdDateTime (dateStr : String) : Option GoTime :=
  parseLayoutMillis dateStr

/-- `parseNvdVendorCommentDateTime` of the source: parse with the custom
layout `2006-01-02T15:04:05`. -/
def parseNvdVendorCommentDateTime (dateStr : String) : Option GoTime :=
  parseLayoutSeconds dateStr

/-! ## The `dto` payload shapes

Modelled from the spec: the `pkg/dto` package of this repository is not in
the sources at hand; its shapes are reconstructed from section 3
(RawNvdRecord) and section 6 of the specification and from how
`nvd.go` and its tests construct and consume them. The version-specific
NVD vocabularies are string-typed in the DTOs, so they are embedded as
`String` fields with named constants. -/

def AttackVectorTypeNetwork : String := "NETWORK"

def AttackVectorTypeAdjacentNetwork : String := "ADJACENT_NETWORK"

def AttackVectorTypeLocal : String := "LOCAL"

def AttackVectorTypePhysical : String := "PHYSICAL"

def AccessVectorTypeV2Network : String := "NETWORK"

def AccessVectorTypeV2AdjacentNetwork : String := "ADJACENT_NETWORK"

def AccessVectorTypeV2Local : String := "LOCAL"

def AttackComplexityTypeLow : String := "LOW"

def AttackComplexityTypeHigh : String := "HIGH"

def AccessComplexityTypeV2High : String := "HIGH"

def AccessComplexityTypeV2Medium : String := "MEDIUM"

def AccessComplexityTypeV2Low : String := "LOW"

def PrivilegesRequiredTypeHigh : String := "HIGH"

def PrivilegesRequiredTypeLow : String := "LOW"

def PrivilegesRequiredTypeNone : String := "NONE"

def CiaTypeHigh : String := "HIGH"

def CiaTypeLow : String := "LOW"

def CiaTypeNone : String := "NONE"

def CiaTypeV2Complete : String := "COMPLETE"

def CiaTypeV2Partial : String := "PARTIAL"

def CiaTypeV2None : String := "NONE"

def SeverityTypeCriticalStr : String := "CRITICAL"

def SeverityTypeHighStr : String := "HIGH"

def SeverityTypeMediumStr : String := "MEDIUM"

def SeverityTypeLowStr : String := "LOW"

def SeverityTypeNoneStr : String := "NONE"

def ExploitCodeMaturityTypeHigh : String := "HIGH"

def ExploitCodeMaturityTypeFunctional : String := "FUNCTIONAL"

def ExploitCodeMaturityTypeProofOfConcept : String := "PROOF_OF_CONCEPT"

def ExploitCodeMaturityTypeUnproven : String := "UNPROVEN"

def ExploitCodeMaturityTypeNotDefined : String := "NOT_DEFINED"

def ExploitabilityTypeV2Unproven : String := "UNPROVEN"

def ExploitabilityTypeV2ProofOfConcept : String := "PROOF_OF_CONCEPT"

def ExploitabilityTypeV2Functional : String := "FUNCTIONAL"

def ExploitabilityTypeV2High : String := "HIGH"

def ExploitabilityTypeV2NotDefined : String := "NOT_DEFINED"

/-- `dto.Description`: one localized description. -/
structure Description where
  lang : String
  value : String
deriving DecidableEq, Repr

/-- `dto.Reference`: one reference URL. -/
structure Reference where
  url : String
deriving DecidableEq, Repr

/-- `dto.VendorComment`: a raw vendor comment with its unparsed timestamp. -/
structure DtoVendorComment where
  organization : String
  comment : String
  lastModified : String
deriving DecidableEq, Repr

/-- `dto.CvssDataV31`: the CVSS 3.1 data block of an NVD metric entry. -/
structure CvssDataV31 where
  version : String
  vectorString : String
  attackVector : String
  attackComplexity : String
  privilegesRequired : String
  userInteraction : String
  scope : String
  confidentialityImpact : String
  integrityImpact : String
  availabilityImpact : String
  baseScore : Rat
  baseSeverity : String
  exploitCodeMaturity : Option String
deriving DecidableEq, Repr

/-- `dto.CvssMetricV31`: one CVSS 3.1 metric entry. -/
structure CvssMetricV31 where
  cvssData : CvssDataV31
  exploitabilityScore : Rat
  impactScore : Rat
deriving DecidableEq, Repr

/-- `dto.CvssDataV30`: the CVSS 3.0 data block of an NVD metric entry. -/
structure CvssDataV30 where
  version : String
  vectorString : String
  attackVector : String
  attackComplexity : String
  privilegesRequired : String
  userInteraction : String
  scope : String
  confidentialityImpact : String
  integrityImpact : String
  availabilityImpact : String
  baseScore : Rat
  baseSeverity : String
  exploitCodeMaturity : Option String
deriving DecidableEq, Repr

/-- `dto.CvssMetricV30`: one CVSS 3.0 metric entry. -/
structure CvssMetricV30 where
  cvssData : CvssDataV30
  exploitabilityScore : Rat
  impactScore : Rat
deriving DecidableEq, Repr

/-- `dto.CvssDataV2`: the CVSS 2.0 data block of an NVD metric entry. -/
structure CvssDataV2 where
  version : String
  vectorString : String
  accessVector : String
  accessComplexity : String
  authentication : String
  confidentialityImpact : String
  integrityImpact : String
  availabilityImpact : String
  baseScore : Rat
  exploitability : Option String
deriving DecidableEq, Repr

/-- `dto.CvssMetricV2`: one CVSS 2.0 metric entry (severity lives beside
the data block in this schema version). -/
structure CvssMetricV2 where
  cvssData : CvssDataV2
  exploitabilityScore : Rat
  impactScore : Rat
  baseSeverity : String
deriving DecidableEq, Repr

/-- `dto.Metrics`: the optional multi-version metrics container, each
version's list independently populated or empty. -/
structure Metrics where
  cvssMetricV31 : List CvssMetricV31
  cvssMetricV30 : List CvssMetricV30
  cvssMetricV2 : List CvssMetricV2
deriving DecidableEq, Repr

/-- `dto.CveDetail`: the CVE object of one NVD API vulnerability. -/
structure CveDetail where
  id : String
  sourceIdentifier : String
  descriptions : List Description
  references : List Reference
  metrics : Option Metrics
  vendorComments : List DtoVendorComment
  published : String
  lastModified : String
deriving DecidableEq, Repr

/-- `dto.Vulnerability`: one vulnerability of the NVD API response. -/
structure DtoVulnerability where
  cve : CveDetail
deriving DecidableEq, Repr

/-- `dto.NvdAPIResponse`: the decoded NVD API response body. -/
structure NvdAPIResponse where
  totalResults : Int
  vulnerabilities : List DtoVulnerability
deriving DecidableEq, Repr

/-! ## The canonical (`tools`) shapes -/

/-- `tools.Exploit`: exploit maturity score and category. -/
structure Exploit where
  score : Rat
  exploitability : ExploitabilityType
deriving DecidableEq, Repr

/-- `tools.VendorComment`: a canonical vendor comment with a parsed
timestamp. -/
structure VendorComment where
  organization : String
  comment : String
  lastModified : GoTime
deriving DecidableEq, Repr

/-- `tools.Vulnerability`: the mutable target record of enrichment. -/
structure Vulnerability where
  id : String
  type : String
  description : String
  references : List String
  baseCVSSScore : Rat
  baseSeverity : SeverityType
  impactScore : Rat
  access : AccessType
  complexity : ComplexityType
  privilegesRequired : PrivilegesRequiredType
  integrityImpact : ImpactType
  availabilityImpact : ImpactType
  exploit : Exploit
  published : GoTime
  lastUpdated : GoTime
  likelihood : LikelyhoodType
  riskScore : Rat
  vendorComments : List VendorComment
deriving DecidableEq, Repr

/-! ## Error values

One inductive gathers the distinct error values of `nvd.go`; wrapping with
`fmt.Errorf("...: %w", err)` becomes a constructor holding the cause, so
`errors.Is` becomes structural recursion through the wrappers. -/

/-- The error values produced by `nvd.go`, with wrapping made structural. -/
inductive NvdError
  /-- a `%w`-wrap of `ErrInvalidCPE` with a message (from `isValidCPE`). -/
  | invalidCPE (msg : String)
  /-- a plain `fmt.Errorf` of `standardizeCPE`. -/
  | formatError (msg : String)
  /-- the sentinel `ErrNVDServiceUnavailable` (503). -/
  | serviceUnavailable
  /-- a `%w`-wrap of `ErrNVDAPIStatus` with the status code. -/
  | apiStatus (code : Nat)
  /-- a `%w`-wrap of `ErrNVDDecode` with the decoder message. -/
  | decodeError (msg : String)
  /-- a transport-level failure of `client.Do`, wrapped. -/
  | requestError (msg : String)
  /-- the wrap `non-retriable error for CPE <cpe>: %w`. -/
  | nonRetriable (cpe : String) (cause : NvdError)
  /-- the wrap `failed NVD API request after <n> retries: %w`; the cause is
  the last error variable of the loop, `none` mirroring a nil Go error. -/
  | afterRetries (retries : Nat) (cause : Option NvdError)
  /-- `expected a non-nil vulnerability` from the orchestrator. -/
  | nilTarget
  /-- the wrap `failed to parse <field>: %w` of the orchestrator. -/
  | dateParseError (field : String)
deriving Repr

/-! ## Mapping tables (`nvd.go` lines 368-517) -/

/-- `mapAccessTypeV31AndV30`: CVSS 3.x attack vector to canonical access. -/
def mapAccessTypeV31AndV30 (attackVector : String) : AccessType :=
  if attackVector = AttackVectorTypeNetwork then .network
  else if attackVector = AttackVectorTypeAdjacentNetwork then .adjacentNetwork
  else if attackVector = AttackVectorTypeLocal then .local
  else if attackVector = AttackVectorTypePhysical then .physical
  else .unknown

/-- `mapAccessTypeV2`: CVSS 2.0 access vector to canonical access. -/
def mapAccessTypeV2 (accessVector : String) : AccessType :=
  if accessVector = AccessVectorTypeV2Network then .network
  else if accessVector = AccessVectorTypeV2AdjacentNetwork then .adjacentNetwork
  else if accessVector = AccessVectorTypeV2Local then .local
  else .unknown

/-- `mapComplexityTypeV31AndV30`: CVSS 3.x attack complexity to canonical. -/
def mapComplexityTypeV31AndV30 (complexity : String) : ComplexityType :=
  if complexity = AttackComplexityTypeLow then .low
  else if complexity = AttackComplexityTypeHigh then .high
  else .unknown

/-- `mapComplexityTypeV2`: CVSS 2.0 access complexity to canonical. -/
def mapComplexityTypeV2 (complexity : String) : ComplexityType :=
  if complexity = AccessComplexityTypeV2High then .high
  else if complexity = AccessComplexityTypeV2Medium then .medium
  else if complexity = AccessComplexityTypeV2Low then .low
  else .unknown

/-- `mapPrivilegesRequiredTypeV31AndV30`: CVSS 3.x privileges required. -/
def mapPrivilegesRequiredTypeV31AndV30 (privReq : String) : PrivilegesRequiredType :=
  if privReq = PrivilegesRequiredTypeHigh then .high
  else if privReq = PrivilegesRequiredTypeLow then .low
  else if privReq = PrivilegesRequiredTypeNone then .none
  else .unknown

/-- `mapImpactTypeV31AndV30`: CVSS 3.x CIA impact to canonical. -/
def mapImpactTypeV31AndV30 (cia : String) : ImpactType :=
  if cia = CiaTypeHigh then .high
  else if cia = CiaTypeLow then .low
  else if cia = CiaTypeNone then .none
  else .unknown

/-- `mapImpactTypeV2`: CVSS 2.0 CIA impact to canonical (COMPLETE maps to
High, PARTIAL maps to Low). -/
def mapImpactTypeV2 (cia : String) : ImpactType :=
  if cia = CiaTypeV2Complete then .high
  else if cia = CiaTypeV2Partial then .low
  else if cia = CiaTypeV2None then .none
  else .unknown

/-- `mapSeverityType`: CVSS 3.x textual base severity to canonical. -/
def mapSeverityType (severity : String) : SeverityType :=
  if severity = SeverityTypeCriticalStr then .critical
  else if severity = SeverityTypeHighStr then .high
  else if severity = SeverityTypeMediumStr then .medium
  else if severity = SeverityTypeLowStr then .low
  else if severity = SeverityTypeNoneStr then .none
  else .unknown

/-- `mapExploitabilityV31AndV30`: optional CVSS 3.x exploit code maturity. -/
def mapExploitabilityV31AndV30 (exploitability : Option String) : ExploitabilityType :=
  match exploitability with
  | Option.none => .unknown
  | some e =>
    if e = ExploitCodeMaturityTypeHigh then .high
    else if e = ExploitCodeMaturityTypeFunctional then .functional
    else if e = ExploitCodeMaturityTypeProofOfConcept then .proofOfConcept
    else if e = ExploitCodeMaturityTypeUnproven then .unproven
    else if e = ExploitCodeMaturityTypeNotDefined then .undefined
    else .unknown

/-- `mapExploitabilityV2`: optional CVSS 2.0 exploitability. -/
def mapExploitabilityV2 (exploitability : Option String) : ExploitabilityType :=
  match exploitability with
  | Option.none => .unknown
  | some e =>
    if e = ExploitabilityTypeV2Unproven then .unproven
    else if e = ExploitabilityTypeV2ProofOfConcept then .proofOfConcept
    else if e = ExploitabilityTypeV2Functional then .functional
    else if e = ExploitabilityTypeV2High then .high
    else if e = ExploitabilityTypeV2NotDefined then .undefined
    else .unknown

/-! ## CPE validator and normalizer (`nvd.go` lines 125-188)

The Go `strings` helpers these two functions rely on are embedded as
structurally recursive functions over the character list of a `String`,
with the exact semantics of `strings.Split`, `strings.HasPrefix` and
`strings.TrimPrefix`. -/

/-- Worker of `goSplit`: characters still to scan, the (reversed) current
field. -/
def goSplitAux (sep : Char) : List Char → List Char → List String
  | [], acc => [String.mk acc.reverse]
  | c :: rest, acc =>
    if c == sep then String.mk acc.reverse :: goSplitAux sep rest []
    else goSplitAux sep rest (c :: acc)

/-- Go `strings.Split` with a one-character separator: the list of fields
between separators, `[""]` on the empty string, preserving empty fields. -/
def goSplit (s : String) (sep : Char) : List String :=
  goSplitAux sep s.toList []

/-- Does `s` start with the characters `pre`? (Go `strings.HasPrefix`.) -/
def goStartsWith (s pre : String) : Bool :=
  charsStart s.toList pre.toList
where
  /-- character-list worker. -/
  charsStart : List Char → List Char → Bool
    | _, [] => true
    | [], _ :: _ => false
    | c :: cs, p :: ps => c == p && charsStart cs ps

/-- Go `strings.TrimPrefix`: remove `pre` from the front of `s` when it is
there, else return `s` unchanged. -/
def goTrimLeading (s pre : String) : String :=
  if goStartsWith s pre then String.mk (s.toList.drop pre.toList.length) else s

/-- The component positions `isValidCPE` requires to be concrete:
part, vendor, product, version. -/
def componentsToCheck : List Nat := [2, 3, 4, 5]

/-- `isValidCPE`: structural validation of a strict CPE 2.3 string.
Splits on `:`; requires exactly 13 tokens, token 0 `cpe`, token 1 `2.3`,
and no wildcard at the part/vendor/product/version positions. Every
failure wraps `ErrInvalidCPE`. -/
def isValidCPE (cpe : String) : Except NvdError Unit :=
  let parts := goSplit cpe ':'
  if parts.length ≠ 13 then
    .error (.invalidCPE ("must have 13 colon-separated parts, got " ++
      toString parts.length))
  else if parts.getD 0 "" ≠ "cpe" then
    .error (.invalidCPE ("must start with cpe, got " ++ parts.getD 0 ""))
  else if parts.getD 1 "" ≠ "2.3" then
    .error (.invalidCPE ("must have 2.3 as the second part (CPE Version), got " ++
      parts.getD 1 ""))
  else
    match componentsToCheck.find? (fun i => parts.getD i "" == "*") with
    | some i => .error (.invalidCPE ("component at index " ++ toString i ++
        " must not be a wildcard"))
    | Option.none => .ok ()

/-- `standardizeCPE`: transforms a legacy (`cpe:/`) CPE into the strict
CPE 2.3 form consumed by the NVD API: strip the prefix, split on `:`,
require at least 4 fields, strip a stray leading slash from the first
field, then pad with `*` or truncate so that exactly 11 fields follow
`cpe:2.3:`. -/
def standardizeCPE (cpe : String) : Except NvdError String :=
  if ¬ goStartsWith cpe "cpe:/" then
    .error (.formatError ("CPE does not start with cpe:/ : " ++ cpe))
  else
    let rest := goTrimLeading cpe "cpe:/"
    let parts := goSplit rest ':'
    if parts.length < 4 then
      .error (.formatError
        ("CPE is too short, needs at least part, vendor, product and version: " ++ cpe))
    else
      let parts :=
        match parts with
        | [] => []
        | p :: tl => goTrimLeading p "/" :: tl
      let paddingNeeded : Int := 11 - (parts.length : Int)
      let parts :=
        if 0 < paddingNeeded then parts ++ List.replicate paddingNeeded.toNat "*"
        else if paddingNeeded < 0 then parts.take 11
        else parts
      .ok ("cpe:2.3:" ++ String.intercalate ":" parts)

/-! ## Metric extraction (`nvd.go` lines 243-329) -/

/-- The nine values returned by `extractMetrics`, named as in the Go
return list. -/
structure ExtractedMetrics where
  baseCVSSScore : Rat
  baseSeverity : SeverityType
  impactScore : Rat
  access : AccessType
  complexity : ComplexityType
  privilegesRequired : PrivilegesRequiredType
  integrityImpact : ImpactType
  availabilityImpact : ImpactType
  exploitability : Exploit
deriving DecidableEq, Repr

/-- The Unknown/0.0 defaults `extractMetrics` starts from. -/
def defaultExtractedMetrics : ExtractedMetrics where
  baseCVSSScore := 0
  baseSeverity := .unknown
  impactScore := 0
  access := .unknown
  complexity := .unknown
  privilegesRequired := .unknown
  integrityImpact := .unknown
  availabilityImpact := .unknown
  exploitability := { score := 0, exploitability := .unknown }

/-- `extractMetrics`: project the optional multi-version metrics container
into the canonical fields, preferring CVSS 3.1, then 3.0, then 2.0, using
only the first entry of the chosen list. `mapCVSS` is the external
severity-banding collaborator `tools.MapCVSS`, consumed only on the 2.0
path. -/
def extractMetrics (mapCVSS : Rat → SeverityType) (metrics : Option Metrics) :
    ExtractedMetrics :=
  match metrics with
  | Option.none => defaultExtractedMetrics
  | some m =>
    match m.cvssMetricV31 with
    | mv31 :: _ =>
      let d := mv31.cvssData
      { baseCVSSScore := d.baseScore
        baseSeverity := mapSeverityType d.baseSeverity
        impactScore := mv31.impactScore
        access := mapAccessTypeV31AndV30 d.attackVector
        complexity := mapComplexityTypeV31AndV30 d.attackComplexity
        privilegesRequired := mapPrivilegesRequiredTypeV31AndV30 d.privilegesRequired
        integrityImpact := mapImpactTypeV31AndV30 d.integrityImpact
        availabilityImpact := mapImpactTypeV31AndV30 d.availabilityImpact
        exploitability :=
          { score := mv31.exploitabilityScore
            exploitability := mapExploitabilityV31AndV30 d.exploitCodeMaturity } }
    | [] =>
      match m.cvssMetricV30 with
      | mv30 :: _ =>
        let d := mv30.cvssData
        { baseCVSSScore := d.baseScore
          baseSeverity := mapSeverityType d.baseSeverity
          impactScore := mv30.impactScore
          access := mapAccessTypeV31AndV30 d.attackVector
          complexity := mapComplexityTypeV31AndV30 d.attackComplexity
          privilegesRequired := mapPrivilegesRequiredTypeV31AndV30 d.privilegesRequired
          integrityImpact := mapImpactTypeV31AndV30 d.integrityImpact
          availabilityImpact := mapImpactTypeV31AndV30 d.availabilityImpact
          exploitability :=
            { score := mv30.exploitabilityScore
              exploitability := mapExploitabilityV31AndV30 d.exploitCodeMaturity } }
      | [] =>
        match m.cvssMetricV2 with
        | mv2 :: _ =>
          let d := mv2.cvssData
          { defaultExtractedMetrics with
            baseCVSSScore := d.baseScore
            impactScore := mv2.impactScore
            baseSeverity := mapCVSS d.baseScore
            access := mapAccessTypeV2 d.accessVector
            complexity := mapComplexityTypeV2 d.accessComplexity
            integrityImpact := mapImpactTypeV2 d.integrityImpact
            availabilityImpact := mapImpactTypeV2 d.availabilityImpact
            exploitability :=
              { score := mv2.exploitabilityScore
                exploitability := mapExploitabilityV2 d.exploitability } }
        | [] => defaultExtractedMetrics

/-! ## Helpers of the orchestrator (`nvd.go` lines 331-346, 519-555) -/

/-- `getEnglishDescription`: the value of the first description whose
language tag is `en`, or the empty string. -/
def getEnglishDescription : List Description → String
  | [] => ""
  | d :: rest => if d.lang = "en" then d.value else getEnglishDescription rest

/-- `getReferences`: the reference URLs, in order. -/
def getReferences (vulnReferences : List Reference) : List String :=
  vulnReferences.map (·.url)

/-- `calculateLikelihoodSimple`: qualitative likelihood from the canonical
access vector and complexity of the (partially enriched) vulnerability. -/
def calculateLikelihoodSimple (vuln : Vulnerability) : LikelyhoodType :=
  match vuln.access with
  | .network =>
    if vuln.complexity == ComplexityType.low then .veryHigh else .high
  | .adjacentNetwork => .medium
  | .unknown => .unknown
  | _ => .low

/-- `parseVendorComments`: copy organization and comment verbatim, parse
the timestamp with the strict seconds layout, drop (with a warning) any
entry whose timestamp fails to parse. -/
def parseVendorComments (nvdComments : List DtoVendorComment) : List VendorComment :=
  match nvdComments with
  | [] => []
  | c :: rest =>
    match parseNvdVendorCommentDateTime c.lastModified with
    | Option.none => parseVendorComments rest
    | some t =>
      { organization := c.organization, comment := c.comment, lastModified := t } ::
        parseVendorComments rest

/-- `enrichVulnerabilityWithNvdData`: the enrichment orchestrator. The Go
function mutates `*tools.Vulnerability` in place and returns an error; the
embedding threads the state explicitly and returns the pair of the call's
result and the final state of the target (a nil pointer is `none`).
`mapCVSS` and `calculateRiskScore` are the external collaborators
`tools.MapCVSS` and `enums.CalculateRiskScore`. -/
def enrichVulnerabilityWithNvdData (mapCVSS : Rat → SeverityType)
    (calculateRiskScore : LikelyhoodType → ImpactType → ImpactType → Rat)
    (vuln : Option Vulnerability) (nvdVuln : DtoVulnerability) :
    Except NvdError Unit × Option Vulnerability :=
  match vuln with
  | Option.none => (.error .nilTarget, Option.none)
  | some v =>
    let v := { v with
      id := nvdVuln.cve.id
      type := nvdVuln.cve.sourceIdentifier
      description := getEnglishDescription nvdVuln.cve.descriptions
      references := getReferences nvdVuln.cve.references }
    let em := extractMetrics mapCVSS nvdVuln.cve.metrics
    let v := { v with
      baseCVSSScore := em.baseCVSSScore
      baseSeverity := em.baseSeverity
      impactScore := em.impactScore
      access := em.access
      complexity := em.complexity
      privilegesRequired := em.privilegesRequired
      integrityImpact := em.integrityImpact
      availabilityImpact := em.availabilityImpact
      exploit := em.exploitability }
    match parseNvdDateTime nvdVuln.cve.published with
    | Option.none => (.error (.dateParseError "publishedTime"), some v)
    | some publishedTime =>
      let v := { v with published := publishedTime }
      match parseNvdDateTime nvdVuln.cve.lastModified with
      | Option.none => (.error (.dateParseError "updatedTime"), some v)
      | some updatedTime =>
        let v := { v with lastUpdated := updatedTime }
        let v := { v with likelihood := calculateLikelihoodSimple v }
        let v := { v with
          riskScore := calculateRiskScore v.likelihood v.integrityImpact
            v.availabilityImpact }
        let v := { v with
          vendorComments := parseVendorComments nvdVuln.cve.vendorComments }
        (.ok (), some v)

/-! ## The resilient fetcher (`nvd.go` lines 35-123)

The HTTP world of one run is a function from the attempt index to that
attempt's outcome: either a transport-level failure of `client.Do`, or a
response with a status code and a body that either deserializes into an
`NvdAPIResponse` or fails to (JSON decoding is the external
`encoding/json` collaborator, so the body is carried already classified). -/

/-- What one HTTP attempt can observe. -/
inductive AttemptOutcome
  /-- `client.Do` itself failed (network/transport error). -/
  | transportError (msg : String)
  /-- a response arrived with this status code and body. -/
  | status (code : Nat) (body : Except String NvdAPIResponse)

/-- `maxRetries` of the source. -/
def maxRetries : Nat := 3

/-- `initialRetryDelay` of the source: 5 seconds, in nanoseconds. -/
def initialRetryDelay : Int := 5 * 1000000000

/-- `calculateRetryDelay`: exponential backoff `initialDelay * 2^attempt`
plus 20 percent jitter, capped at 15 seconds. The Go jitter is
`int64(float64(delay) * 0.2)`; at every reachable magnitude (a multiple of
5e9 below 2^36) that float product is exactly `delay / 5`. -/
def calculateRetryDelay (attempt : Nat) : Int :=
  let delay := initialRetryDelay * (2 ^ attempt : Nat)
  let jitter := delay / 5
  let delay := delay + jitter
  if delay > 15 * 1000000000 then 15 * 1000000000 else delay

/-- `attemptFetch`: classify one attempt's outcome. 503 is the sentinel
`ErrNVDServiceUnavailable`; any other non-200 status wraps
`ErrNVDAPIStatus`; a 200 body that fails to deserialize wraps
`ErrNVDDecode`; a 200 body that deserializes is the success. -/
def attemptFetch (outcome : AttemptOutcome) : Except NvdError NvdAPIResponse :=
  match outcome with
  | .transportError msg => .error (.requestError msg)
  | .status code body =>
    if code = 503 then .error .serviceUnavailable
    else if code ≠ 200 then .error (.apiStatus code)
    else
      match body with
      | .error msg => .error (.decodeError msg)
      | .ok nvdResponse => .ok nvdResponse

/-- `shouldRetry`: `errors.Is(err, ErrNVDServiceUnavailable)`, made
structural through the wrapping constructors. -/
def shouldRetry : NvdError → Bool
  | .serviceUnavailable => true
  | .nonRetriable _ cause => shouldRetry cause
  | .afterRetries _ (some cause) => shouldRetry cause
  | _ => false

/-- Observable events of one fetch run: an HTTP attempt, or a backoff
suspension (`time.Sleep`) with its delay. -/
inductive FetchEvent
  | attempt (n : Nat)
  | sleep (delay : Int)
deriving DecidableEq, Repr

/-- The number of HTTP attempts recorded in a trace. -/
def countAttempts (trace : List FetchEvent) : Nat :=
  (trace.filter fun e => match e with | .attempt _ => true | _ => false).length

/-- The number of backoff suspensions recorded in a trace. -/
def countSleeps (trace : List FetchEvent) : Nat :=
  (trace.filter fun e => match e with | .sleep _ => true | _ => false).length

/-- The body of the retry loop of `fetchNvdDataByCPE`, one recursive call
per iteration. `remaining` counts the iterations the loop header
`attempt <= maxRetries` still allows (at entry `maxRetries + 1`), so the
loop exits when it reaches zero; `attempt` is the Go loop counter and
`lastErr` the Go `err` variable (nil at entry). Every iteration records
its attempt; an iteration that fails retriably records the computed
backoff sleep before the next iteration, exactly as the Go body
unconditionally calls `time.Sleep` after a retriable failure. -/
def fetchGo (outcomes : Nat → AttemptOutcome) (cpe : String) :
    Nat → Nat → Option NvdError →
      Except NvdError NvdAPIResponse × List FetchEvent
  | 0, _, lastErr => (.error (.afterRetries maxRetries lastErr), [])
  | remaining + 1, attempt, _ =>
    match attemptFetch (outcomes attempt) with
    | .ok nvdResponse => (.ok nvdResponse, [.attempt attempt])
    | .error e =>
      if shouldRetry e then
        let retryDelay := calculateRetryDelay attempt
        let r := fetchGo outcomes cpe remaining (attempt + 1) (some e)
        (r.1, .attempt attempt :: .sleep retryDelay :: r.2)
      else
        (.error (.nonRetriable cpe e), [.attempt attempt])

/-- `fetchNvdDataByCPE`: run the retry loop from attempt 0 with a nil
last error, returning the call's result together with the trace of
attempts and suspensions. -/
def fetchNvdDataByCPE (outcomes : Nat → AttemptOutcome) (cpe : String) :
    Except NvdError NvdAPIResponse × List FetchEvent :=
  fetchGo outcomes cpe (maxRetries + 1) 0 Option.none

/-! ## Theorems -/

/-- The likelihood table stated by the specification (section 4.5),
written as the claim words it: Network+Low is VeryHigh, Network with any
other complexity is High, AdjacentNetwork is Medium, Local is Low,
Unknown is Unknown, and any other access value (Physical) is Low. -/
def likelihoodTable : AccessType → ComplexityType → LikelyhoodType
  | .network, .low => .veryHigh
  | .network, _ => .high
  | .adjacentNetwork, _ => .medium
  | .local, _ => .low
  | .unknown, _ => .unknown
  | .physical, _ => .low

/-- C8: `deriveLikelihood` is a total function of (access, complexity)
matching the fixed table: (Network, Low) yields VeryHigh; (Network, c) for
every other c yields High; (AdjacentNetwork, c) yields Medium; (Local, c)
yields Low; (Unknown, c) yields Unknown; and every other access value
(Physical) yields Low. -/
theorem calculateLikelihoodSimple_matches_table (v : Vulnerability) :
    calculateLikelihoodSimple v = likelihoodTable v.access v.complexity := by
  cases h1 : v.access <;> cases h2 : v.complexity <;>
    simp [calculateLikelihoodSimple, likelihoodTable, h1, h2]

/-- C9: `parseVendorComments` never fails as a whole: its output is the
sublist of entries whose timestamp parses under the strict
YYYY-MM-DDTHH:MM:SS pattern, each with organization and comment copied
verbatim and the parsed timestamp attached, in the original relative
order (a filterMap); an empty input yields an empty output list. -/
theorem parseVendorComments_filterMap :
    (∀ l : List DtoVendorComment,
      parseVendorComments l =
        l.filterMap (fun c =>
          (parseNvdVendorCommentDateTime c.lastModified).map
            (fun t => { organization := c.organization, comment := c.comment,
                        lastModified := t }))) ∧
    parseVendorComments [] = [] := by
  constructor
  · intro l
    induction l with
    | nil => rfl
    | cons c rest ih =>
      cases h : parseNvdVendorCommentDateTime c.lastModified <;>
        simp [parseVendorComments, h, ih]
  · rfl

/-- C10: on a payload whose 3.1 and 3.0 lists are empty and whose 2.0 list
is non-empty, the canonical privileges-required field stays at its Unknown
default, whatever the 2.0 entry contains. -/
theorem extractMetrics_v2_privilegesRequired_unknown
    (mapCVSS : Rat → SeverityType) (m : Metrics)
    (h31 : m.cvssMetricV31 = []) (h30 : m.cvssMetricV30 = [])
    (h2 : m.cvssMetricV2 ≠ []) :
    (extractMetrics mapCVSS (some m)).privilegesRequired =
      PrivilegesRequiredType.unknown := by
  obtain ⟨l31, l30, l2⟩ := m
  simp only at h31 h30 h2
  subst h31 h30
  cases l2 with
  | nil => exact absurd rfl h2
  | cons mv2 tl => simp [extractMetrics, defaultExtractedMetrics]

/-- A CVSS 2.0 metric entry used by concrete witnesses, mirroring the
mock of the repository's own tests (score 5.0, NETWORK/LOW, impacts
NONE). -/
def sampleMetricV2 : CvssMetricV2 where
  cvssData :=
    { version := "2.0"
      vectorString := "(AV:N/AC:L/Au:N/C:P/I:N/A:N)"
      accessVector := "NETWORK"
      accessComplexity := "LOW"
      authentication := "NONE"
      confidentialityImpact := "PARTIAL"
      integrityImpact := "NONE"
      availabilityImpact := "NONE"
      baseScore := 5
      exploitability := Option.none }
  exploitabilityScore := 10
  impactScore := 29 / 10
  baseSeverity := "MEDIUM"

theorem extractMetrics_v2_privilegesRequired_unknown_witness :
    (extractMetrics (fun _ => SeverityType.medium)
        (some { cvssMetricV31 := [], cvssMetricV30 := [],
                cvssMetricV2 := [sampleMetricV2] })).privilegesRequired =
      PrivilegesRequiredType.unknown :=
  extractMetrics_v2_privilegesRequired_unknown (fun _ => SeverityType.medium)
    { cvssMetricV31 := [], cvssMetricV30 := [], cvssMetricV2 := [sampleMetricV2] }
    rfl rfl (by simp)

/-- The spec-side canonical projection of one CVSS 3.1 entry (section 4.4
mapping table): scores copied, severity from the textual field, vectors
through the 3.x vocabularies. -/
def v31Canonical (mv : CvssMetricV31) : ExtractedMetrics where
  baseCVSSScore := mv.cvssData.baseScore
  baseSeverity := mapSeverityType mv.cvssData.baseSeverity
  impactScore := mv.impactScore
  access := mapAccessTypeV31AndV30 mv.cvssData.attackVector
  complexity := mapComplexityTypeV31AndV30 mv.cvssData.attackComplexity
  privilegesRequired := mapPrivilegesRequiredTypeV31AndV30 mv.cvssData.privilegesRequired
  integrityImpact := mapImpactTypeV31AndV30 mv.cvssData.integrityImpact
  availabilityImpact := mapImpactTypeV31AndV30 mv.cvssData.availabilityImpact
  exploitability :=
    { score := mv.exploitabilityScore
      exploitability := mapExploitabilityV31AndV30 mv.cvssData.exploitCodeMaturity }

/-- The spec-side canonical projection of one CVSS 3.0 entry. -/
def v30Canonical (mv : CvssMetricV30) : ExtractedMetrics where
  baseCVSSScore := mv.cvssData.baseScore
  baseSeverity := mapSeverityType mv.cvssData.baseSeverity
  impactScore := mv.impactScore
  access := mapAccessTypeV31AndV30 mv.cvssData.attackVector
  complexity := mapComplexityTypeV31AndV30 mv.cvssData.attackComplexity
  privilegesRequired := mapPrivilegesRequiredTypeV31AndV30 mv.cvssData.privilegesRequired
  integrityImpact := mapImpactTypeV31AndV30 mv.cvssData.integrityImpact
  availabilityImpact := mapImpactTypeV31AndV30 mv.cvssData.availabilityImpact
  exploitability :=
    { score := mv.exploitabilityScore
      exploitability := mapExploitabilityV31AndV30 mv.cvssData.exploitCodeMaturity }

/-- The spec-side canonical projection of one CVSS 2.0 entry: severity is
banded from the numeric base score by the external collaborator, and
privileges-required stays at its default. -/
def v2Canonical (mapCVSS : Rat → SeverityType) (mv : CvssMetricV2) :
    ExtractedMetrics where
  baseCVSSScore := mv.cvssData.baseScore
  baseSeverity := mapCVSS mv.cvssData.baseScore
  impactScore := mv.impactScore
  access := mapAccessTypeV2 mv.cvssData.accessVector
  complexity := mapComplexityTypeV2 mv.cvssData.accessComplexity
  privilegesRequired := .unknown
  integrityImpact := mapImpactTypeV2 mv.cvssData.integrityImpact
  availabilityImpact := mapImpactTypeV2 mv.cvssData.availabilityImpact
  exploitability :=
    { score := mv.exploitabilityScore
      exploitability := mapExploitabilityV2 mv.cvssData.exploitability }

/-- C4: `extract` is pure and total; an absent payload yields the
Unknown/0.0 defaults; the first non-empty list in the order 3.1, 3.0, 2.0
wins and only its first entry is consulted; in particular two payloads
sharing the same first 3.1 entry (the second also carrying 2.0 data)
extract identically, independently of the banding collaborator. -/
theorem extractMetrics_precedence :
    (∀ mapCVSS, extractMetrics mapCVSS Option.none = defaultExtractedMetrics) ∧
    (∀ mapCVSS m mv rest, m.cvssMetricV31 = mv :: rest →
      extractMetrics mapCVSS (some m) = v31Canonical mv) ∧
    (∀ mapCVSS m mv rest, m.cvssMetricV31 = [] → m.cvssMetricV30 = mv :: rest →
      extractMetrics mapCVSS (some m) = v30Canonical mv) ∧
    (∀ mapCVSS m mv rest, m.cvssMetricV31 = [] → m.cvssMetricV30 = [] →
      m.cvssMetricV2 = mv :: rest →
      extractMetrics mapCVSS (some m) = v2Canonical mapCVSS mv) ∧
    (∀ mapCVSS m, m.cvssMetricV31 = [] → m.cvssMetricV30 = [] →
      m.cvssMetricV2 = [] → extractMetrics mapCVSS (some m) = defaultExtractedMetrics) ∧
    (∀ f g m m' mv rest rest', m.cvssMetricV31 = mv :: rest →
      m'.cvssMetricV31 = mv :: rest' → m'.cvssMetricV2 ≠ [] →
      extractMetrics f (some m) = extractMetrics g (some m')) := by
  refine ⟨fun _ => rfl, ?_, ?_, ?_, ?_, ?_⟩
  · intro mapCVSS m mv rest h
    obtain ⟨l31, l30, l2⟩ := m
    simp only at h
    subst h
    rfl
  · intro mapCVSS m mv rest h31 h30
    obtain ⟨l31, l30, l2⟩ := m
    simp only at h31 h30
    subst h31 h30
    rfl
  · intro mapCVSS m mv rest h31 h30 h2
    obtain ⟨l31, l30, l2⟩ := m
    simp only at h31 h30 h2
    subst h31 h30 h2
    rfl
  · intro mapCVSS m h31 h30 h2
    obtain ⟨l31, l30, l2⟩ := m
    simp only at h31 h30 h2
    subst h31 h30 h2
    rfl
  · intro f g m m' mv rest rest' h h' _
    obtain ⟨l31, l30, l2⟩ := m
    obtain ⟨l31', l30', l2'⟩ := m'
    simp only at h h'
    subst h h'
    rfl

/-- A CVSS 3.1 metric entry used by concrete witnesses, mirroring the
mock of the repository's own tests. -/
def sampleMetricV31 : CvssMetricV31 where
  cvssData :=
    { version := "3.1"
      vectorString := "CVSS:3.1/AV:N/AC:L/PR:N/UI:N/S:U/C:H/I:H/A:N"
      attackVector := "NETWORK"
      attackComplexity := "LOW"
      privilegesRequired := "NONE"
      userInteraction := "NONE"
      scope := "UNCHANGED"
      confidentialityImpact := "HIGH"
      integrityImpact := "HIGH"
      availabilityImpact := "NONE"
      baseScore := 15 / 2
      baseSeverity := "HIGH"
      exploitCodeMaturity := some "FUNCTIONAL" }
  exploitabilityScore := 39 / 10
  impactScore := 59 / 10

theorem extractMetrics_precedence_witness :
    extractMetrics (fun _ => SeverityType.medium)
        (some { cvssMetricV31 := [sampleMetricV31], cvssMetricV30 := [],
                cvssMetricV2 := [sampleMetricV2] }) =
      v31Canonical sampleMetricV31 :=
  extractMetrics_precedence.2.1 (fun _ => SeverityType.medium)
    { cvssMetricV31 := [sampleMetricV31], cvssMetricV30 := [],
      cvssMetricV2 := [sampleMetricV2] }
    sampleMetricV31 [] rfl

/-- C5: `validate` succeeds exactly on well-formed lookup keys: accepted
iff the string splits on `:` into exactly 13 tokens, token 0 is `cpe`,
token 1 is `2.3`, and tokens 2 through 5 are not the wildcard `*` (tokens
6 through 12 are never consulted); every rejection is an
`InvalidCPE` error. -/
theorem isValidCPE_characterization (cpe : String) :
    (isValidCPE cpe = .ok () ↔
      ((goSplit cpe ':').length = 13 ∧
        (goSplit cpe ':').getD 0 "" = "cpe" ∧
        (goSplit cpe ':').getD 1 "" = "2.3" ∧
        ∀ i ∈ componentsToCheck, (goSplit cpe ':').getD i "" ≠ "*")) ∧
    (isValidCPE cpe ≠ .ok () →
      ∃ msg, isValidCPE cpe = .error (.invalidCPE msg)) := by
  have hshape : isValidCPE cpe = .ok () ∨
      ∃ msg, isValidCPE cpe = .error (.invalidCPE msg) := by
    simp only [isValidCPE]
    split
    · exact Or.inr ⟨_, rfl⟩
    · split
      · exact Or.inr ⟨_, rfl⟩
      · split
        · exact Or.inr ⟨_, rfl⟩
        · split
          · exact Or.inr ⟨_, rfl⟩
          · exact Or.inl rfl
  refine ⟨?_, ?_⟩
  · constructor
    · intro hok
      simp only [isValidCPE] at hok
      split at hok
      · cases hok
      · split at hok
        · cases hok
        · split at hok
          · cases hok
          · split at hok
            · cases hok
            · next h1 h2 h3 hf =>
              refine ⟨by omega, by tauto, by tauto, ?_⟩
              intro i hi
              have := List.find?_eq_none.mp hf i hi
              simpa using this
    · rintro ⟨h1, h2, h3, h4⟩
      have hf : componentsToCheck.find?
          (fun i => (goSplit cpe ':').getD i "" == "*") = Option.none := by
        apply List.find?_eq_none.mpr
        intro i hi
        simpa using h4 i hi
      simp only [isValidCPE]
      rw [if_neg (fun h => h h1), if_neg (fun h => h h2), if_neg (fun h => h h3), hf]
  · intro hne
    cases hshape with
    | inl h => exact absurd h hne
    | inr h => exact h

theorem isValidCPE_characterization_witness :
    isValidCPE "cpe:2.3:o:microsoft:windows_10:1607:*:*:*:*:*:*:*" = .ok () :=
  ((isValidCPE_characterization
      "cpe:2.3:o:microsoft:windows_10:1607:*:*:*:*:*:*:*").1).mpr (by decide)

/-- C6: for every input beginning with the legacy prefix `cpe:/` whose
remainder splits on `:` into at least 4 fields, `normalize` succeeds and
its output is `cpe:2.3:` followed by exactly 11 colon-joined fields —
the input fields with a stray leading `/` stripped from the first, padded
with `*` up to 11 or truncated down to 11; for every input lacking the
prefix or with fewer than 4 fields it fails with a FormatError. -/
theorem standardizeCPE_characterization (cpe : String) :
    (goStartsWith cpe "cpe:/" = true →
      4 ≤ (goSplit (goTrimLeading cpe "cpe:/") ':').length →
      ∃ fields : List String,
        fields.length = 11 ∧
        standardizeCPE cpe = .ok ("cpe:2.3:" ++ String.intercalate ":" fields) ∧
        fields =
          (let parts := goSplit (goTrimLeading cpe "cpe:/") ':'
           let parts1 := goTrimLeading (parts.getD 0 "") "/" :: parts.tail
           if parts1.length ≤ 11 then
             parts1 ++ List.replicate (11 - parts1.length) "*"
           else parts1.take 11)) ∧
    ((goStartsWith cpe "cpe:/" = false ∨
        (goSplit (goTrimLeading cpe "cpe:/") ':').length < 4) →
      ∃ msg, standardizeCPE cpe = .error (.formatError msg)) := by
  constructor
  · intro hpre hlen
    obtain ⟨p, tl, hp⟩ : ∃ p tl, goSplit (goTrimLeading cpe "cpe:/") ':' = p :: tl := by
      cases h : goSplit (goTrimLeading cpe "cpe:/") ':' with
      | nil => rw [h] at hlen; simp at hlen
      | cons p tl => exact ⟨p, tl, rfl⟩
    have hn : 4 ≤ tl.length + 1 := by rw [hp] at hlen; simpa using hlen
    have hnot4 : ¬ ((p :: tl).length < 4) := by simp only [List.length_cons]; omega
    by_cases hA : tl.length + 1 < 11
    · refine ⟨goTrimLeading p "/" :: (tl ++ List.replicate (11 - (tl.length + 1)) "*"),
        ?_, ?_, ?_⟩
      · simp only [List.length_cons, List.length_append, List.length_replicate]
        omega
      · simp only [standardizeCPE]
        rw [if_neg (by simp [hpre]), hp, if_neg hnot4]
        dsimp only
        rw [if_pos (by simp only [List.length_cons]; push_cast; omega)]
        have harg : (11 - ((goTrimLeading p "/" :: tl).length : Int)).toNat
            = 11 - (tl.length + 1) := by
          simp only [List.length_cons]
          omega
        rw [harg]
        simp [List.cons_append]
      · simp only [hp, List.getD_cons_zero, List.tail_cons, List.length_cons]
        rw [if_pos (by omega)]
        simp [List.cons_append]
    · refine ⟨(goTrimLeading p "/" :: tl).take 11, ?_, ?_, ?_⟩
      · simp only [List.length_take, List.length_cons]
        omega
      · by_cases hB : tl.length + 1 = 11
        · simp only [standardizeCPE]
          rw [if_neg (by simp [hpre]), hp, if_neg hnot4]
          dsimp only
          rw [if_neg (by simp only [List.length_cons]; push_cast; omega), if_neg (by simp only [List.length_cons]; push_cast; omega)]
          congr 1
          rw [List.take_of_length_le (by simp only [List.length_cons]; omega)]
        · simp only [standardizeCPE]
          rw [if_neg (by simp [hpre]), hp, if_neg hnot4]
          dsimp only
          rw [if_neg (by simp only [List.length_cons]; push_cast; omega), if_pos (by simp only [List.length_cons]; push_cast; omega)]
      · simp only [hp, List.getD_cons_zero, List.tail_cons, List.length_cons]
        by_cases hB : tl.length + 1 = 11
        · rw [if_pos (by omega)]
          rw [List.take_of_length_le (by simp only [List.length_cons]; omega)]
          simp only [hB]
          simp
        · rw [if_neg (by omega)]
  · intro hbad
    rcases hbad with hpre | hlen
    · refine ⟨"CPE does not start with cpe:/ : " ++ cpe, ?_⟩
      simp only [standardizeCPE]
      rw [if_pos (by simp [hpre])]
    · by_cases hpre : goStartsWith cpe "cpe:/" = true
      · refine ⟨"CPE is too short, needs at least part, vendor, product and version: " ++
          cpe, ?_⟩
        simp only [standardizeCPE]
        rw [if_neg (by simp [hpre]), if_pos hlen]
      · refine ⟨"CPE does not start with cpe:/ : " ++ cpe, ?_⟩
        simp only [standardizeCPE]
        rw [if_pos (by simpa using hpre)]

theorem standardizeCPE_characterization_witness :
    goStartsWith "cpe:/o:microsoft:windows_10:1607" "cpe:/" = true ∧
    4 ≤ (goSplit (goTrimLeading "cpe:/o:microsoft:windows_10:1607" "cpe:/") ':').length ∧
    ∃ fields : List String,
      fields.length = 11 ∧
      standardizeCPE "cpe:/o:microsoft:windows_10:1607" =
        .ok ("cpe:2.3:" ++ String.intercalate ":" fields) :=
  ⟨by decide, by decide, by
    obtain ⟨fields, h11, hok, _⟩ :=
      (standardizeCPE_characterization "cpe:/o:microsoft:windows_10:1607").1
        (by decide) (by decide)
    exact ⟨fields, h11, hok⟩⟩

/-! ## Fetcher lemmas -/

/-- One unfolding of the retry loop body. -/
theorem fetchGo_succ (outcomes : Nat → AttemptOutcome) (cpe : String)
    (remaining attempt : Nat) (lastErr : Option NvdError) :
    fetchGo outcomes cpe (remaining + 1) attempt lastErr =
      match attemptFetch (outcomes attempt) with
      | .ok nvdResponse => (.ok nvdResponse, [.attempt attempt])
      | .error e =>
        if shouldRetry e then
          ((fetchGo outcomes cpe remaining (attempt + 1) (some e)).1,
            .attempt attempt :: .sleep (calculateRetryDelay attempt) ::
              (fetchGo outcomes cpe remaining (attempt + 1) (some e)).2)
        else (.error (.nonRetriable cpe e), [.attempt attempt]) := rfl

@[simp] theorem countAttempts_nil : countAttempts [] = 0 := rfl

@[simp] theorem countAttempts_cons_attempt (n : Nat) (t : List FetchEvent) :
    countAttempts (.attempt n :: t) = countAttempts t + 1 := by
  simp [countAttempts, List.filter_cons]

@[simp] theorem countAttempts_cons_sleep (d : Int) (t : List FetchEvent) :
    countAttempts (.sleep d :: t) = countAttempts t := by
  simp [countAttempts, List.filter_cons]

@[simp] theorem countSleeps_nil : countSleeps [] = 0 := rfl

@[simp] theorem countSleeps_cons_attempt (n : Nat) (t : List FetchEvent) :
    countSleeps (.attempt n :: t) = countSleeps t := by
  simp [countSleeps, List.filter_cons]

@[simp] theorem countSleeps_cons_sleep (d : Int) (t : List FetchEvent) :
    countSleeps (.sleep d :: t) = countSleeps t + 1 := by
  simp [countSleeps, List.filter_cons]

/-- The trace of a run of the loop in which every attempt fails
retriably: each iteration records its attempt and then its backoff
suspension. -/
def retryTrace : Nat → Nat → List FetchEvent
  | 0, _ => []
  | rem + 1, attempt =>
    .attempt attempt :: .sleep (calculateRetryDelay attempt) ::
      retryTrace rem (attempt + 1)

/-- Under permanent 503, the loop runs out of iterations, yields the
wrapped ServiceUnavailable (the threaded last error), and its trace is
`retryTrace`. -/
theorem fetchGo_all503 (outcomes : Nat → AttemptOutcome) (cpe : String)
    (h : ∀ i, ∃ b, outcomes i = AttemptOutcome.status 503 b) :
    ∀ remaining attempt lastErr,
      fetchGo outcomes cpe remaining attempt lastErr =
        (.error (.afterRetries maxRetries
          (if remaining = 0 then lastErr else some .serviceUnavailable)),
         retryTrace remaining attempt) := by
  intro remaining
  induction remaining with
  | zero => intro attempt lastErr; rfl
  | succ rem ih =>
    intro attempt lastErr
    obtain ⟨b, hb⟩ := h attempt
    have e : attemptFetch (outcomes attempt) = .error .serviceUnavailable := by
      rw [hb]; rfl
    have hgo : fetchGo outcomes cpe (rem + 1) attempt lastErr =
        ((fetchGo outcomes cpe rem (attempt + 1) (some .serviceUnavailable)).1,
         .attempt attempt :: .sleep (calculateRetryDelay attempt) ::
           (fetchGo outcomes cpe rem (attempt + 1) (some .serviceUnavailable)).2) := by
      rw [fetchGo_succ, e]; rfl
    rw [hgo, ih (attempt + 1) (some .serviceUnavailable)]
    simp [retryTrace]

/-- If the first `k` attempts fail with 503 and attempt `k` (still inside
the loop bound) succeeds, the loop returns that response after `k + 1`
attempts and `k` suspensions. -/
theorem fetchGo_success_at (outcomes : Nat → AttemptOutcome) (cpe : String)
    (r : NvdAPIResponse) :
    ∀ k remaining attempt lastErr, k < remaining →
      (∀ i, i < k → ∃ b, outcomes (attempt + i) = AttemptOutcome.status 503 b) →
      outcomes (attempt + k) = AttemptOutcome.status 200 (.ok r) →
      (fetchGo outcomes cpe remaining attempt lastErr).1 = .ok r ∧
      countAttempts (fetchGo outcomes cpe remaining attempt lastErr).2 = k + 1 ∧
      countSleeps (fetchGo outcomes cpe remaining attempt lastErr).2 = k := by
  intro k
  induction k with
  | zero =>
    intro remaining attempt lastErr hk h503 h200
    obtain ⟨rem, rfl⟩ : ∃ rem, remaining = rem + 1 := ⟨remaining - 1, by omega⟩
    have e : attemptFetch (outcomes attempt) = .ok r := by
      rw [show attempt + 0 = attempt from rfl] at h200; rw [h200]; rfl
    rw [fetchGo_succ, e]
    exact ⟨rfl, rfl, rfl⟩
  | succ k ih =>
    intro remaining attempt lastErr hk h503 h200
    obtain ⟨rem, rfl⟩ : ∃ rem, remaining = rem + 1 := ⟨remaining - 1, by omega⟩
    obtain ⟨b, hb⟩ := h503 0 (by omega)
    have e : attemptFetch (outcomes attempt) = .error .serviceUnavailable := by
      rw [show attempt + 0 = attempt from rfl] at hb; rw [hb]; rfl
    have hgo : fetchGo outcomes cpe (rem + 1) attempt lastErr =
        ((fetchGo outcomes cpe rem (attempt + 1) (some .serviceUnavailable)).1,
         .attempt attempt :: .sleep (calculateRetryDelay attempt) ::
           (fetchGo outcomes cpe rem (attempt + 1) (some .serviceUnavailable)).2) := by
      rw [fetchGo_succ, e]; rfl
    obtain ⟨ih1, ih2, ih3⟩ := ih rem (attempt + 1) (some .serviceUnavailable)
      (by omega)
      (fun i hi => by
        obtain ⟨b', hb'⟩ := h503 (i + 1) (by omega)
        exact ⟨b', by rw [show attempt + 1 + i = attempt + (i + 1) by omega]; exact hb'⟩)
      (by rw [show attempt + 1 + k = attempt + (k + 1) by omega]; exact h200)
    rw [hgo]
    refine ⟨ih1, ?_, ?_⟩
    · simp [ih2]
    · simp [ih3]

/-- C2: whenever every attempt yields 503, `fetch` performs exactly
`maxRetries + 1` (= 4) HTTP attempts and fails with the last retriable
error (ServiceUnavailable) wrapped with the retry count; and whenever the
first `k` attempts yield 503 and attempt `k` (within the bound) succeeds
with a valid 200 body, `fetch` returns that decoded body after exactly
`k + 1` attempts. -/
theorem fetch_retry_contract :
    (∀ outcomes cpe, (∀ i, ∃ b, outcomes i = AttemptOutcome.status 503 b) →
      (fetchNvdDataByCPE outcomes cpe).1 =
        .error (.afterRetries maxRetries (some .serviceUnavailable)) ∧
      countAttempts (fetchNvdDataByCPE outcomes cpe).2 = maxRetries + 1) ∧
    (∀ outcomes cpe k (r : NvdAPIResponse), k ≤ maxRetries →
      (∀ i, i < k → ∃ b, outcomes i = AttemptOutcome.status 503 b) →
      outcomes k = AttemptOutcome.status 200 (.ok r) →
      (fetchNvdDataByCPE outcomes cpe).1 = .ok r ∧
      countAttempts (fetchNvdDataByCPE outcomes cpe).2 = k + 1) := by
  constructor
  · intro outcomes cpe h
    have := fetchGo_all503 outcomes cpe h (maxRetries + 1) 0 Option.none
    rw [fetchNvdDataByCPE, this]
    exact ⟨by simp [maxRetries], by simp [maxRetries]; rfl⟩
  · intro outcomes cpe k r hk h503 h200
    have := fetchGo_success_at outcomes cpe r k (maxRetries + 1) 0 Option.none
      (by omega)
      (fun i hi => by simpa using h503 i hi)
      (by simpa using h200)
    rw [fetchNvdDataByCPE]
    exact ⟨this.1, this.2.1⟩

/-- A run in which the server answers 503 on every attempt. -/
def all503Outcomes : Nat → AttemptOutcome := fun _ =>
  .status 503 (.error "503 Service Unavailable")

theorem fetch_retry_contract_witness :
    (fetchNvdDataByCPE all503Outcomes "cpe:2.3:a:x:y:1:*:*:*:*:*:*:*").1 =
      .error (.afterRetries maxRetries (some .serviceUnavailable)) ∧
    countAttempts (fetchNvdDataByCPE all503Outcomes
      "cpe:2.3:a:x:y:1:*:*:*:*:*:*:*").2 = maxRetries + 1 :=
  fetch_retry_contract.1 all503Outcomes "cpe:2.3:a:x:y:1:*:*:*:*:*:*:*"
    (fun _ => ⟨.error "503 Service Unavailable", rfl⟩)

/-- C3 counterexample: on a run in which every attempt returns 503, the
fetcher suspends `maxRetries + 1` times — one backoff follows every failed
attempt, the final one included — not the `maxRetries` times the claim
states. -/
theorem fetch_sleep_count_counterexample :
    countSleeps (fetchNvdDataByCPE all503Outcomes "cpe").2 = maxRetries + 1 ∧
    countSleeps (fetchNvdDataByCPE all503Outcomes "cpe").2 ≠ maxRetries := by
  exact ⟨rfl, by decide⟩

/-- C3 (amended): the backoff suspension never occurs before the first
attempt (every run's trace starts with attempt 0), and on a retriable
outcome the fetcher suspends after every failed attempt — the final one
included, since the loop body sleeps unconditionally after a retriable
failure — so a run in which every attempt returns 503 interleaves its
`maxRetries + 1` attempts with `maxRetries + 1` suspensions. -/
theorem fetch_backoff_placement (outcomes : Nat → AttemptOutcome) (cpe : String) :
    ((fetchNvdDataByCPE outcomes cpe).2.head? = some (.attempt 0)) ∧
    ((∀ i, ∃ b, outcomes i = AttemptOutcome.status 503 b) →
      (fetchNvdDataByCPE outcomes cpe).2 =
        [.attempt 0, .sleep (calculateRetryDelay 0),
         .attempt 1, .sleep (calculateRetryDelay 1),
         .attempt 2, .sleep (calculateRetryDelay 2),
         .attempt 3, .sleep (calculateRetryDelay 3)] ∧
      countSleeps (fetchNvdDataByCPE outcomes cpe).2 = maxRetries + 1) := by
  constructor
  · rw [show fetchNvdDataByCPE outcomes cpe
        = fetchGo outcomes cpe (3 + 1) 0 Option.none from rfl, fetchGo_succ]
    cases hf : attemptFetch (outcomes 0) with
    | ok r => rfl
    | error e =>
      by_cases hr : shouldRetry e = true <;> simp [hr]
  · intro h
    have := fetchGo_all503 outcomes cpe h (maxRetries + 1) 0 Option.none
    rw [fetchNvdDataByCPE, this]
    exact ⟨rfl, rfl⟩

theorem fetch_backoff_placement_witness :
    (fetchNvdDataByCPE all503Outcomes "cpe").2 =
      [.attempt 0, .sleep (calculateRetryDelay 0),
       .attempt 1, .sleep (calculateRetryDelay 1),
       .attempt 2, .sleep (calculateRetryDelay 2),
       .attempt 3, .sleep (calculateRetryDelay 3)] ∧
    countSleeps (fetchNvdDataByCPE all503Outcomes "cpe").2 = maxRetries + 1 :=
  (fetch_backoff_placement all503Outcomes "cpe").2
    (fun _ => ⟨.error "503 Service Unavailable", rfl⟩)

/-- C7: `fetch` aborts immediately on a non-retriable first outcome — a
transport failure, a status that is neither 200 nor 503, or a 200 body
that fails to deserialize each produce exactly one attempt, no suspension
and an immediate wrapped failure surfacing the cause; and among the
errors an attempt can produce, exactly the 503 outcome is retriable. -/
theorem fetch_nonretriable_aborts (outcomes : Nat → AttemptOutcome) (cpe : String) :
    (∀ msg, outcomes 0 = .transportError msg →
      fetchNvdDataByCPE outcomes cpe =
        (.error (.nonRetriable cpe (.requestError msg)), [.attempt 0])) ∧
    (∀ code body, outcomes 0 = .status code body → code ≠ 200 → code ≠ 503 →
      fetchNvdDataByCPE outcomes cpe =
        (.error (.nonRetriable cpe (.apiStatus code)), [.attempt 0])) ∧
    (∀ msg, outcomes 0 = .status 200 (.error msg) →
      fetchNvdDataByCPE outcomes cpe =
        (.error (.nonRetriable cpe (.decodeError msg)), [.attempt 0])) ∧
    (∀ o e, attemptFetch o = .error e →
      (shouldRetry e = true ↔ ∃ b, o = .status 503 b)) := by
  have hrun : fetchNvdDataByCPE outcomes cpe
      = fetchGo outcomes cpe (3 + 1) 0 Option.none := rfl
  refine ⟨?_, ?_, ?_, ?_⟩
  · intro msg h
    rw [hrun, fetchGo_succ, h]
    rfl
  · intro code body h h200 h503
    rw [hrun, fetchGo_succ, h]
    have he : attemptFetch (.status code body) = .error (.apiStatus code) := by
      simp [attemptFetch, h200, h503]
    rw [he]
    have hnr : shouldRetry (.apiStatus code) = false := rfl
    simp [hnr]
  · intro msg h
    rw [hrun, fetchGo_succ, h]
    rfl
  · intro o e he
    cases o with
    | transportError msg =>
      simp only [attemptFetch, Except.error.injEq] at he
      subst he
      simp [shouldRetry]
    | status code body =>
      by_cases hc : code = 503
      · subst hc
        simp [attemptFetch] at he
        subst he
        exact ⟨fun _ => ⟨body, rfl⟩, fun _ => rfl⟩
      · constructor
        · intro hr
          exfalso
          by_cases h200 : code = 200
          · subst h200
            cases body with
            | error msg =>
              simp only [attemptFetch, if_neg hc] at he
              simp only [if_neg (by omega : ¬ (200 : Nat) ≠ 200)] at he
              cases he
              simp [shouldRetry] at hr
            | ok r =>
              simp only [attemptFetch, if_neg hc] at he
              simp only [if_neg (by omega : ¬ (200 : Nat) ≠ 200)] at he
              cases he
          · simp only [attemptFetch, if_neg hc, if_pos h200, Except.error.injEq] at he
            subst he
            simp [shouldRetry] at hr
        · rintro ⟨b, hb⟩
          cases hb
          exact absurd rfl hc

/-- A run whose first attempt fails at the transport level. -/
def transportFailOutcomes : Nat → AttemptOutcome := fun _ =>
  .transportError "connection refused"

theorem fetch_nonretriable_aborts_witness :
    fetchNvdDataByCPE transportFailOutcomes "cpe" =
      (.error (.nonRetriable "cpe" (.requestError "connection refused")),
       [.attempt 0]) :=
  (fetch_nonretriable_aborts transportFailOutcomes "cpe").1 "connection refused" rfl

/-! ## Orchestrator theorems (C1) -/

/-- The Go zero `time.Time`, as a `GoTime`. -/
def zeroTime : GoTime := ⟨1, 1, 1, 0, 0, 0, 0⟩

/-- A freshly allocated target record (`&tools.Vulnerability{}` with an
identifier so that mutation is visible). -/
def plainTarget : Vulnerability where
  id := "OLD-ID"
  type := ""
  description := ""
  references := []
  baseCVSSScore := 0
  baseSeverity := .unknown
  impactScore := 0
  access := .unknown
  complexity := .unknown
  privilegesRequired := .unknown
  integrityImpact := .unknown
  availabilityImpact := .unknown
  exploit := { score := 0, exploitability := .unknown }
  published := zeroTime
  lastUpdated := zeroTime
  likelihood := .unknown
  riskScore := 0
  vendorComments := []

/-- An NVD record whose required timestamps do not parse. -/
def badDateNvdVuln : DtoVulnerability where
  cve :=
    { id := "CVE-2024-12345"
      sourceIdentifier := "nvd@nist.gov"
      descriptions := []
      references := []
      metrics := Option.none
      vendorComments := []
      published := "not-a-timestamp"
      lastModified := "not-a-timestamp" }

/-- C1 counterexample: at this input the enrichment call returns a
date-parse error, yet the target is not left as it was — its identifier
(among other fields) has already been overwritten when the call aborts. -/
theorem enrich_error_mutates_counterexample :
    (enrichVulnerabilityWithNvdData (fun _ => SeverityType.unknown)
      (fun _ _ _ => 0) (some plainTarget) badDateNvdVuln).1 =
        .error (.dateParseError "publishedTime") ∧
    (enrichVulnerabilityWithNvdData (fun _ => SeverityType.unknown)
      (fun _ _ _ => 0) (some plainTarget) badDateNvdVuln).2 ≠ some plainTarget := by
  exact ⟨rfl, by decide⟩

/-- C1 (amended): a nil target fails with no state at all; a failing
required timestamp aborts the call with a date-parse error before vendor
comments, likelihood, risk score and the timestamp fields themselves are
written — those fields still hold their pre-call values — but the
identifier (with the other record/CVSS fields copied earlier) has already
been mutated, so the call is not atomic on this error path. -/
theorem enrich_mutation_boundary (mapCVSS : Rat → SeverityType)
    (calcRisk : LikelyhoodType → ImpactType → ImpactType → Rat)
    (nvdVuln : DtoVulnerability) :
    (enrichVulnerabilityWithNvdData mapCVSS calcRisk Option.none nvdVuln =
      (.error .nilTarget, Option.none)) ∧
    (∀ v : Vulnerability, parseNvdDateTime nvdVuln.cve.published = Option.none →
      (enrichVulnerabilityWithNvdData mapCVSS calcRisk (some v) nvdVuln).1 =
        .error (.dateParseError "publishedTime") ∧
      ((enrichVulnerabilityWithNvdData mapCVSS calcRisk (some v) nvdVuln).2.map
        Vulnerability.id) = some nvdVuln.cve.id ∧
      ((enrichVulnerabilityWithNvdData mapCVSS calcRisk (some v) nvdVuln).2.map
        Vulnerability.published) = some v.published ∧
      ((enrichVulnerabilityWithNvdData mapCVSS calcRisk (some v) nvdVuln).2.map
        Vulnerability.lastUpdated) = some v.lastUpdated ∧
      ((enrichVulnerabilityWithNvdData mapCVSS calcRisk (some v) nvdVuln).2.map
        Vulnerability.likelihood) = some v.likelihood ∧
      ((enrichVulnerabilityWithNvdData mapCVSS calcRisk (some v) nvdVuln).2.map
        Vulnerability.riskScore) = some v.riskScore ∧
      ((enrichVulnerabilityWithNvdData mapCVSS calcRisk (some v) nvdVuln).2.map
        Vulnerability.vendorComments) = some v.vendorComments) ∧
    (∀ v : Vulnerability, ∀ t : GoTime,
      parseNvdDateTime nvdVuln.cve.published = some t →
      parseNvdDateTime nvdVuln.cve.lastModified = Option.none →
      (enrichVulnerabilityWithNvdData mapCVSS calcRisk (some v) nvdVuln).1 =
        .error (.dateParseError "updatedTime") ∧
      ((enrichVulnerabilityWithNvdData mapCVSS calcRisk (some v) nvdVuln).2.map
        Vulnerability.id) = some nvdVuln.cve.id ∧
      ((enrichVulnerabilityWithNvdData mapCVSS calcRisk (some v) nvdVuln).2.map
        Vulnerability.published) = some t ∧
      ((enrichVulnerabilityWithNvdData mapCVSS calcRisk (some v) nvdVuln).2.map
        Vulnerability.lastUpdated) = some v.lastUpdated ∧
      ((enrichVulnerabilityWithNvdData mapCVSS calcRisk (some v) nvdVuln).2.map
        Vulnerability.likelihood) = some v.likelihood ∧
      ((enrichVulnerabilityWithNvdData mapCVSS calcRisk (some v) nvdVuln).2.map
        Vulnerability.riskScore) = some v.riskScore ∧
      ((enrichVulnerabilityWithNvdData mapCVSS calcRisk (some v) nvdVuln).2.map
        Vulnerability.vendorComments) = some v.vendorComments) := by
  refine ⟨rfl, ?_, ?_⟩
  · intro v hp
    simp only [enrichVulnerabilityWithNvdData]
    rw [hp]
    exact ⟨rfl, rfl, rfl, rfl, rfl, rfl, rfl⟩
  · intro v t hp hl
    simp only [enrichVulnerabilityWithNvdData]
    rw [hp, hl]
    exact ⟨rfl, rfl, rfl, rfl, rfl, rfl, rfl⟩

theorem enrich_mutation_boundary_witness :
    (enrichVulnerabilityWithNvdData (fun _ => SeverityType.unknown)
      (fun _ _ _ => 0) (some plainTarget) badDateNvdVuln).1 =
        .error (.dateParseError "publishedTime") ∧
    ((enrichVulnerabilityWithNvdData (fun _ => SeverityType.unknown)
      (fun _ _ _ => 0) (some plainTarget) badDateNvdVuln).2.map
        Vulnerability.vendorComments) = some plainTarget.vendorComments :=
  ⟨((enrich_mutation_boundary (fun _ => SeverityType.unknown) (fun _ _ _ => 0)
      badDateNvdVuln).2.1 plainTarget rfl).1,
   ((enrich_mutation_boundary (fun _ => SeverityType.unknown) (fun _ _ _ => 0)
      badDateNvdVuln).2.1 plainTarget rfl).2.2.2.2.2.2⟩

end NvdService
